import Mathlib

set_option maxRecDepth 16384

/-!
Verification of the field-reconciliation engine in
src/update_products/field_updater.py, against src/db.py and
src/create_products/api_client.py.

Modelling conventions:
* Python JSON values are the inductive type Json below; a Python float is a
  finite exact rational, inf, -inf or nan.  float() on an out-of-range int
  raises OverflowError, which the numeric coercion branch does NOT catch:
  convert_value_for_api_checked makes that escaping exception explicit,
  while the engine-level definitions use the total convert_value_for_api,
  which agrees with it everywhere the program does not crash.  Rounding of
  in-range finite values to 53-bit doubles is idealised as exact (no proved
  property depends on it).
* A Python expression that may raise an exception which the surrounding code
  catches is modelled as an Option (none = the exception was raised).
  Uncaught exception paths are either modelled explicitly (the coercion
  overflow) or marked by comments; no proved property depends on the
  commented ones.
* Timestamps (datetime values) are modelled as natural numbers.
-/

/-- An exact rational in lowest terms, kept as an explicit
numerator/denominator pair so that all arithmetic is kernel-computable. -/
structure PyRat where
  num : Int
  den : Nat
deriving DecidableEq

/-- Build a PyRat in lowest terms from a numerator and a positive
denominator. -/
def mkPyRat (n : Int) (d : Nat) : PyRat :=
  let g := n.natAbs.gcd d
  if g = 0 then ⟨0, 1⟩ else ⟨n.sign * ((n.natAbs / g : Nat) : Int), d / g⟩

/-- A Python float (IEEE double): a finite value idealised as an exact
rational, or positive/negative infinity, or nan.  (Structural equality is
used below; the
Python inequality nan != nan plays no role in any property proved.) -/
inductive PyFloat where
  | finite (q : PyRat) : PyFloat
  | inf (neg : Bool) : PyFloat
  | nan : PyFloat
deriving DecidableEq

/-- The smallest positive integer n for which float(n) raises
OverflowError: round-to-nearest sends every value at or above
2^1024 - 2^970 to 2^1024, which exceeds the largest double. -/
def doubleOverflowThreshold : Nat := 2 ^ 1024 - 2 ^ 970

/-- Does the exact value num/den round beyond the largest double? -/
def ratOverflows (n : Int) (d : Nat) : Bool :=
  doubleOverflowThreshold * d ≤ n.natAbs

/-- Multiplication of a float by an int (the price doubling): finite values
that leave the double range become inf, as Python float multiplication
does (it returns inf, it does not raise). -/
def PyFloat.mulInt : PyFloat → Int → PyFloat
  | .finite q, k =>
    let r := mkPyRat (q.num * k) q.den
    if ratOverflows r.num r.den then .inf (r.num < 0) else .finite r
  | .inf neg, k => if k = 0 then .nan else .inf (neg != decide (k < 0))
  | .nan, _ => .nan

/-- A Python/JSON value as produced by json.loads and the JSON-RPC API.
Python distinguishes int from float; both are kept. -/
inductive Json where
  | null : Json
  | bool (b : Bool) : Json
  | int (n : Int) : Json
  | float (q : PyFloat) : Json
  | str (s : String) : Json
  | arr (xs : List Json) : Json
  | obj (kvs : List (String × Json)) : Json

mutual
/-- Structural Boolean equality on Json (deriving does not support this
nested inductive, so equality is spelled out). -/
def beqJson : Json → Json → Bool
  | .null, .null => true
  | .bool a, .bool b => a == b
  | .int a, .int b => a == b
  | .float a, .float b => a == b
  | .str a, .str b => a == b
  | .arr xs, .arr ys => beqJsonList xs ys
  | .obj kvs, .obj lvs => beqJsonKVs kvs lvs
  | _, _ => false

def beqJsonList : List Json → List Json → Bool
  | [], [] => true
  | x :: xs, y :: ys => beqJson x y && beqJsonList xs ys
  | _, _ => false

def beqJsonKVs : List (String × Json) → List (String × Json) → Bool
  | [], [] => true
  | (k, v) :: kvs, (l, w) :: lvs => k == l && beqJson v w && beqJsonKVs kvs lvs
  | _, _ => false
end

mutual
theorem beqJson_eq : ∀ a b : Json, beqJson a b = true ↔ a = b
  | .null, .null => by simp [beqJson]
  | .null, .bool _ => by simp [beqJson]
  | .null, .int _ => by simp [beqJson]
  | .null, .float _ => by simp [beqJson]
  | .null, .str _ => by simp [beqJson]
  | .null, .arr _ => by simp [beqJson]
  | .null, .obj _ => by simp [beqJson]
  | .bool _, .null => by simp [beqJson]
  | .bool _, .bool _ => by simp [beqJson]
  | .bool _, .int _ => by simp [beqJson]
  | .bool _, .float _ => by simp [beqJson]
  | .bool _, .str _ => by simp [beqJson]
  | .bool _, .arr _ => by simp [beqJson]
  | .bool _, .obj _ => by simp [beqJson]
  | .int _, .null => by simp [beqJson]
  | .int _, .bool _ => by simp [beqJson]
  | .int _, .int _ => by simp [beqJson]
  | .int _, .float _ => by simp [beqJson]
  | .int _, .str _ => by simp [beqJson]
  | .int _, .arr _ => by simp [beqJson]
  | .int _, .obj _ => by simp [beqJson]
  | .float _, .null => by simp [beqJson]
  | .float _, .bool _ => by simp [beqJson]
  | .float _, .int _ => by simp [beqJson]
  | .float _, .float _ => by simp [beqJson]
  | .float _, .str _ => by simp [beqJson]
  | .float _, .arr _ => by simp [beqJson]
  | .float _, .obj _ => by simp [beqJson]
  | .str _, .null => by simp [beqJson]
  | .str _, .bool _ => by simp [beqJson]
  | .str _, .int _ => by simp [beqJson]
  | .str _, .float _ => by simp [beqJson]
  | .str _, .str _ => by simp [beqJson]
  | .str _, .arr _ => by simp [beqJson]
  | .str _, .obj _ => by simp [beqJson]
  | .arr _, .null => by simp [beqJson]
  | .arr _, .bool _ => by simp [beqJson]
  | .arr _, .int _ => by simp [beqJson]
  | .arr _, .float _ => by simp [beqJson]
  | .arr _, .str _ => by simp [beqJson]
  | .arr xs, .arr ys => by simp [beqJson, beqJsonList_eq xs ys]
  | .arr _, .obj _ => by simp [beqJson]
  | .obj _, .null => by simp [beqJson]
  | .obj _, .bool _ => by simp [beqJson]
  | .obj _, .int _ => by simp [beqJson]
  | .obj _, .float _ => by simp [beqJson]
  | .obj _, .str _ => by simp [beqJson]
  | .obj _, .arr _ => by simp [beqJson]
  | .obj kvs, .obj lvs => by simp [beqJson, beqJsonKVs_eq kvs lvs]

theorem beqJsonList_eq : ∀ xs ys : List Json, beqJsonList xs ys = true ↔ xs = ys
  | [], [] => by simp [beqJsonList]
  | [], _ :: _ => by simp [beqJsonList]
  | _ :: _, [] => by simp [beqJsonList]
  | x :: xs, y :: ys => by
      simp [beqJsonList, beqJson_eq x y, beqJsonList_eq xs ys]

theorem beqJsonKVs_eq :
    ∀ kvs lvs : List (String × Json), beqJsonKVs kvs lvs = true ↔ kvs = lvs
  | [], [] => by simp [beqJsonKVs]
  | [], _ :: _ => by simp [beqJsonKVs]
  | _ :: _, [] => by simp [beqJsonKVs]
  | (k, v) :: kvs, (l, w) :: lvs => by
      simp [beqJsonKVs, beqJson_eq v w, beqJsonKVs_eq kvs lvs]
end

instance : DecidableEq Json := fun a b => decidable_of_iff _ (beqJson_eq a b)

/-- Python dict.get(k): some value when the key is present, none otherwise.
(Calling .get on a non-dict raises AttributeError in Python; every use below
either guards the dict case or notes the crash path in a comment.) -/
def jget : Json → String → Option Json
  | .obj kvs, k => kvs.lookup k
  | _, _ => none

/-- Python dict.get(k, d) with a default. -/
def jgetD (j : Json) (k : String) (d : Json) : Json :=
  (jget j k).getD d

/-- Python truthiness of a JSON value (bool(x)). -/
def truthy : Json → Bool
  | .null => false
  | .bool b => b
  | .int n => n != 0
  | .float (.finite q) => q.num != 0
  | .float (.inf _) => true
  | .float .nan => true
  | .str s => !s.isEmpty
  | .arr xs => !xs.isEmpty
  | .obj kvs => !kvs.isEmpty

/-- Python ", ".join(xs). -/
def joinComma (xs : List String) : String :=
  String.intercalate ", " xs

/-- ASCII lower-casing of one character. -/
def asciiLowerChar (c : Char) : Char :=
  if 'A' ≤ c && c ≤ 'Z' then Char.ofNat (c.toNat + 32) else c

/-- Python str.lower() (the values compared against it below are plain ASCII,
so ASCII lower-casing is faithful). -/
def pyLower (s : String) : String :=
  String.mk (s.toList.map asciiLowerChar)

mutual
/-- Python repr() of a JSON value.  The exact text of float and container
rendering is approximated (e.g. floats print as num/den when not integral);
no proved property inspects these strings beyond propagating them. -/
def pyRepr : Json → String
  | .null => "None"
  | .bool true => "True"
  | .bool false => "False"
  | .int n => toString n
  | .float (.finite q) => if q.den = 1 then toString q.num ++ ".0"
                          else toString q.num ++ "/" ++ toString q.den
  | .float (.inf neg) => if neg then "-inf" else "inf"
  | .float .nan => "nan"
  | .str s => "'" ++ s ++ "'"
  | .arr xs => "[" ++ joinComma (pyReprList xs) ++ "]"
  | .obj kvs => "\x7b" ++ joinComma (pyReprObj kvs) ++ "\x7d"

def pyReprList : List Json → List String
  | [] => []
  | v :: vs => pyRepr v :: pyReprList vs

def pyReprObj : List (String × Json) → List String
  | [] => []
  | (k, v) :: kvs => ("'" ++ k ++ "': " ++ pyRepr v) :: pyReprObj kvs
end

/-- Python str() of a JSON value: the string itself for str, repr otherwise. -/
def pyStr (v : Json) : String :=
  match v with
  | .str s => s
  | v => pyRepr v

/-- Numeric value of a list of decimal digit characters, most significant
first. -/
def digitsVal (cs : List Char) : Nat :=
  cs.foldl (fun acc c => 10 * acc + (c.toNat - 48)) 0

/-- ASCII whitespace, as stripped by Python float() from a string argument.
(Python also strips some Unicode whitespace; the extra code points play no
role in any property proved.) -/
def isAsciiWhitespace (c : Char) : Bool :=
  c == ' ' || c == '\t' || c == '\n' || c == '\r' || c == '\x0b' || c == '\x0c'

/-- Strip leading and trailing whitespace from a character list. -/
def stripWs (cs : List Char) : List Char :=
  ((cs.dropWhile isAsciiWhitespace).reverse.dropWhile isAsciiWhitespace).reverse

/-- No two consecutive underscores. -/
def noDoubleUnderscore : List Char → Bool
  | '_' :: '_' :: _ => false
  | _ :: rest => noDoubleUnderscore rest
  | [] => true

/-- A non-empty run of decimal digits with optional single underscores
between digits, as Python float literals allow. -/
def validDigitGroup (cs : List Char) : Bool :=
  match cs with
  | [] => false
  | c :: _ =>
    c.isDigit
    && (match cs.getLast? with | some l => l.isDigit | none => false)
    && cs.all (fun x => x.isDigit || x == '_')
    && noDoubleUnderscore cs

/-- The digits of a group, underscores removed. -/
def groupDigits (cs : List Char) : List Char :=
  cs.filter Char.isDigit

/-- Split a character list at the first character satisfying p; the second
component is none when no such character occurs. -/
def splitOnFirst (p : Char → Bool) (cs : List Char) : List Char × Option (List Char) :=
  match cs.span (fun c => !p c) with
  | (pre, []) => (pre, none)
  | (pre, _ :: post) => (pre, some post)

/-- The optional exponent part after e/E: an optional sign and a digit
group; some 0 when the part is absent, none when it is malformed. -/
def parseExpOpt : Option (List Char) → Option Int
  | none => some 0
  | some cs =>
    let signed : Bool × List Char :=
      match cs with
      | '-' :: rest => (true, rest)
      | '+' :: rest => (false, rest)
      | _ => (false, cs)
    if validDigitGroup signed.2 then
      let n : Nat := digitsVal (groupDigits signed.2)
      some (if signed.1 then -(n : Int) else (n : Int))
    else none

/-- Assemble the float value of sign * (mantNum / 10^fracLen) * 10^e.
Values that round beyond the largest double give inf (as C strtod and hence
Python float() on strings do, without raising); in-range values are kept
exact and underflow to zero is not modelled (no property proved depends on
either idealisation). -/
def finishFloat (negSign : Bool) (mantNum : Nat) (fracLen : Nat) (e : Int) : PyFloat :=
  let num : Nat := if 0 ≤ e then mantNum * 10 ^ e.toNat else mantNum
  let den : Nat := if 0 ≤ e then 10 ^ fracLen else 10 ^ fracLen * 10 ^ (-e).toNat
  if ratOverflows (num : Int) den then .inf negSign
  else .finite (mkPyRat (if negSign then -(num : Int) else (num : Int)) den)

/-- Python float(s) on a string: strip whitespace, optional sign, then
inf/infinity/nan (case-insensitive) or a decimal literal — digit groups
with optional underscores, an optional fractional part (at least one
mantissa digit in total), and an optional e/E exponent.  none models the
ValueError Python raises on anything else. -/
def pyParseFloatString (s : String) : Option PyFloat :=
  let cs0 := stripWs s.toList
  let signed : Bool × List Char :=
    match cs0 with
    | '-' :: rest => (true, rest)
    | '+' :: rest => (false, rest)
    | _ => (false, cs0)
  let negSign := signed.1
  let cs := signed.2
  let lower := cs.map asciiLowerChar
  if lower = ['i', 'n', 'f'] || lower = ['i', 'n', 'f', 'i', 'n', 'i', 't', 'y'] then
    some (.inf negSign)
  else if lower = ['n', 'a', 'n'] then
    some .nan
  else
    match parseExpOpt (splitOnFirst (fun c => c == 'e' || c == 'E') cs).2 with
    | none => none
    | some e =>
      let mant := (splitOnFirst (fun c => c == 'e' || c == 'E') cs).1
      let ip := (splitOnFirst (fun c => c == '.') mant).1
      let fp := ((splitOnFirst (fun c => c == '.') mant).2).getD []
      if fp.any (fun c => c == '.') then none
      else if ip.isEmpty && fp.isEmpty then none
      else if (!ip.isEmpty && !validDigitGroup ip)
          || (!fp.isEmpty && !validDigitGroup fp) then none
      else
        let fpd := groupDigits fp
        some (finishFloat negSign
          (digitsVal (groupDigits ip) * 10 ^ fpd.length + digitsVal fpd)
          fpd.length e)

/-- The exceptions float(x) can raise in the numeric branch: ValueError and
TypeError are caught by the except clause at line 279; OverflowError is
not listed there and escapes. -/
inductive FloatErr where
  | caught : FloatErr
  | overflow : FloatErr
deriving DecidableEq

instance {e : Type} {a : Type} [DecidableEq e] [DecidableEq a] :
    DecidableEq (Except e a) := fun x y =>
  match x, y with
  | .ok u, .ok v =>
    if h : u = v then .isTrue (by rw [h]) else .isFalse (fun he => h (by cases he; rfl))
  | .error u, .error v =>
    if h : u = v then .isTrue (by rw [h]) else .isFalse (fun he => h (by cases he; rfl))
  | .ok _, .error _ => .isFalse (fun he => Except.noConfusion he)
  | .error _, .ok _ => .isFalse (fun he => Except.noConfusion he)

/-- Python float(x) on an arbitrary value, as invoked by
_convert_value_for_api (line 275): bools become 1.0/0.0, ints convert
unless they lie at or beyond the double range (OverflowError), floats pass
through, strings are parsed (a huge literal gives inf, never an
exception); None, lists and dicts raise TypeError. -/
def tryPyFloat : Json → Except FloatErr PyFloat
  | .bool b => .ok (.finite ⟨if b then 1 else 0, 1⟩)
  | .int n =>
    if doubleOverflowThreshold ≤ n.natAbs then .error .overflow
    else .ok (.finite ⟨n, 1⟩)
  | .float q => .ok q
  | .str s =>
    match pyParseFloatString s with
    | some v => .ok v
    | none => .error .caught
  | _ => .error .caught

/-- FieldUpdater._convert_value_for_api (lines 258-302): coerce a local value
to the API type declared by the field descriptor.  field_info.get('type','')
selects the branch; the numeric branch parses with float(), narrows finite
integral results with int() (inf/nan are not integral and are returned as
floats), and falls back to str() when float() raises ValueError or
TypeError.  An OverflowError from float() is NOT caught (the except clause
at line 279 lists only ValueError and TypeError): .error () models that
exception escaping and aborting the run. -/
def convert_value_for_api_checked (local_value : Json) (field_info : Json) :
    Except Unit Json :=
  let field_type := jgetD field_info "type" (.str "")
  if field_type == Json.str "number" || field_type == Json.str "float"
      || field_type == Json.str "int" then
    match tryPyFloat local_value with
    | .ok (.finite q) => .ok (if q.den = 1 then .int q.num else .float (.finite q))
    | .ok v => .ok (.float v)
    | .error .caught => .ok (.str (pyStr local_value))
    | .error .overflow => .error ()
  else if field_type == Json.str "bool" then
    match local_value with
    | .bool b => .ok (.bool b)
    | .str s => .ok (.bool (["true", "1", "yes", "on"].contains (pyLower s)))
    | v => .ok (.bool (truthy v))
  else if field_type == Json.str "date" then
    .ok (.str (pyStr local_value))
  else
    match local_value with
    | .arr xs => .ok (.arr xs)
    | .obj kvs => .ok (.obj kvs)
    | .bool b => .ok (.bool b)
    | v => .ok (.str (pyStr v))

/-- Total projection of convert_value_for_api_checked, used by the engine
model: on the overflow inputs — where the program crashes rather than
producing a value — it returns the text fallback as a placeholder.  It
agrees with the checked version on every input the program survives
(stated in coercion_except_overflow), and no engine-level property proved
below depends on the placeholder. -/
def convert_value_for_api (local_value : Json) (field_info : Json) : Json :=
  match convert_value_for_api_checked local_value field_info with
  | .ok r => r
  | .error _ => .str (pyStr local_value)

/-- FieldUpdater.static_values (lines 56-65): API field → fixed value. -/
def static_values : List (String × Json) :=
  [("regions", .arr [.str "33"]),
   ("delivery_period", .int 10),
   ("delivery_unit", .int 1),
   ("license", .bool false),
   ("guarantee", .int 1),
   ("guarantee_unit", .int 30)]

/-- FieldUpdater.field_mappings (lines 43-53): API field → local field. -/
def field_mappings : List (String × String) :=
  [("desc", "properties"),
   ("photo", "images"),
   ("year", "release_year"),
   ("producer", "vendor"),
   ("brand", "mark")]

/-- A registered value-transformation lambda: the price lambda takes one
argument, the best_before lambda takes zero arguments.  A unary body that
raises is modelled as none. -/
inductive PyTransform where
  | unary (f : Json → Option Json) : PyTransform
  | nullary (f : Unit → Json) : PyTransform

/-- FieldUpdater.value_transformations (lines 68-73).  price doubles the
value after float() conversion; best_before is a zero-argument lambda whose
body renders today plus one year (the datetime.today() result is passed in as
today_plus_one_year). -/
def value_transformations (today_plus_one_year : String) :
    List (String × PyTransform) :=
  [("price", .unary (fun x =>
      match tryPyFloat x with
      | .ok q => some (.float (q.mulInt 2))
      | .error _ => none)),
   ("best_before", .nullary (fun _ => .str today_plus_one_year))]

/-- The transform call site (line 248) always passes exactly one positional
argument.  Calling a zero-argument lambda with one argument raises TypeError
in Python, which the except clause at line 250 catches, so a nullary
transform always yields none here. -/
def applyTransform1 : PyTransform → Json → Option Json
  | .unary f, x => f x
  | .nullary _, _ => none

/-- FieldUpdater._map_field_value (lines 205-256): static values first, then
the photo/images special case, then rename + optional transform, with type
coercion on every produced value.  local_data is the items of the local
product dict.  (In the photo branch, a truthy non-sized local images value
would raise TypeError uncaught in Python; such values are outside the
model.) -/
def map_field_value (today_plus_one_year : String) (api_field_name : String)
    (local_data : List (String × Json)) (field_info : Json) : Option Json :=
  match static_values.lookup api_field_name with
  | some value => some (convert_value_for_api value field_info)
  | none =>
    let local_field_name := (field_mappings.lookup api_field_name).getD api_field_name
    if api_field_name == "photo" && local_field_name == "images" then
      match (local_data.lookup "images").getD (.arr []) with
      | .arr (x :: _) => some (convert_value_for_api x field_info)
      | .str s =>
        match s.toList with
        | c :: _ => some (convert_value_for_api (.str (String.mk [c])) field_info)
        | [] => none
      | _ => none
    else
      match local_data.lookup local_field_name with
      | some value =>
        match (value_transformations today_plus_one_year).lookup api_field_name with
        | some t =>
          match applyTransform1 t value with
          | some v => some (convert_value_for_api v field_info)
          | none => none
        | none => some (convert_value_for_api value field_info)
      | none => none

/-- A row of the SyncedProduct table (db.py lines 30-43). -/
structure SyncRecord where
  username : String
  product_id : String
  proc_id : Int
  is_fields_updated : Bool
  synced_at : Nat
  last_attempt_time : Option Nat
deriving DecidableEq

/-- A row of the Product table (db.py lines 18-23).  json_data holds the
JSON-decoded value of the stored text column; none models text on which
json.loads raises JSONDecodeError. -/
structure ProductRow where
  product_id : String
  json_data : Option Json
deriving DecidableEq

/-- The two tables the engine touches.  The list order of synced is the
storage order of the rows (no ordering is assumed of it). -/
structure Db where
  synced : List SyncRecord
  products : List ProductRow

/-- The ORDER BY key of get_products_needing_updates (line 106):
last_attempt_time ascending with NULL sorted first. -/
def attemptLe : Option Nat → Option Nat → Bool
  | none, _ => true
  | some _, none => false
  | some a, some b => a ≤ b

def recLe (a b : SyncRecord) : Bool :=
  attemptLe a.last_attempt_time b.last_attempt_time

/-- The query of get_products_needing_updates (lines 102-107): rows with the
given username and is_fields_updated = false, ordered by last_attempt_time
ascending nulls first, limited to products_per_batch. -/
def select_batch (db : Db) (login : String) (limit : Nat) : List SyncRecord :=
  ((db.synced.filter
      (fun r => r.username == login && !r.is_fields_updated)).mergeSort recLe).take limit

/-- One entry of the products_with_data list (lines 121-127). -/
structure LoadedProduct where
  record : SyncRecord
  product_id : String
  proc_id : Int
  product_json : List (String × Json)
  product_data : Json
deriving DecidableEq

/-- The per-record body of the loading loop (lines 113-136): find the Product
row, decode its JSON, read the nested product object.  Every failure
(missing row, JSONDecodeError, attribute error on a non-dict document) is
caught, printed, and the record is silently skipped: none here means the
record does not enter products_with_data at all. -/
def loadProduct (db : Db) (r : SyncRecord) : Option LoadedProduct :=
  match db.products.find? (fun row => row.product_id == r.product_id) with
  | none => none
  | some row =>
    match row.json_data with
    | none => none
    | some pj =>
      match pj with
      | .obj kvs =>
        some { record := r, product_id := r.product_id, proc_id := r.proc_id,
               product_json := kvs,
               product_data := jgetD (.obj kvs) "product" (.obj []) }
      | _ => none

/-- FieldUpdater.get_products_needing_updates (lines 91-139): the selected
batch with its product JSON loaded; unloadable records are dropped. -/
def get_products_needing_updates (db : Db) (login : String) (limit : Nat) :
    List LoadedProduct :=
  (select_batch db login limit).filterMap (loadProduct db)

/-- FieldUpdater.mark_as_updated (lines 304-312). -/
def mark_as_updated (r : SyncRecord) : SyncRecord :=
  { r with is_fields_updated := true, last_attempt_time := none }

/-- FieldUpdater.mark_as_failed (lines 314-321): sets last_attempt_time to
datetime.now() and leaves is_fields_updated untouched. -/
def mark_as_failed (now : Nat) (r : SyncRecord) : SyncRecord :=
  { r with last_attempt_time := some now }

/-- What a call on the underlying api_client object returns: an HTTP
response object carrying status_code, a dict, or any other value
(update_product_field at lines 180-199 branches on exactly these three
shapes). -/
inductive PyCallResult where
  | httpResponse (status_code : Nat) : PyCallResult
  | dict (kvs : List (String × Json)) : PyCallResult
  | plain (v : Json) : PyCallResult

/-- A model of the api_client object held by FieldUpdater.  methods is the
set of attribute names the client's class defines; accessing any other name
raises AttributeError.  The two function fields give the behaviour of the
corresponding method when (and only when) its name is present in methods;
Except.error models a call that raises. -/
structure PyApiClient where
  methods : List String
  fetch_product : String → Except String Json
  update_product_field : Int → String → Json → Except String PyCallResult

/-- The method names the APIClient class in create_products/api_client.py
defines.  Neither fetch_product nor update_product_field is among them. -/
def shippedMethods : List String :=
  ["__init__", "_is_token_expired", "_auto_refresh_token", "send_request",
   "auth_token", "refresh_token", "get_face_users", "create_product"]

/-- FieldUpdater.fetch_product_details_from_api (lines 141-161).  The try
block wraps the whole body, so a missing fetch_product attribute
(AttributeError), a raising call, or an indexing error on a non-dict result
all return None.  On a dict result the "result" entry is returned when
present. -/
def fetch_product_details_from_api (c : PyApiClient) (proc_id : Int) : Option Json :=
  if c.methods.contains "fetch_product" then
    match c.fetch_product (toString proc_id) with
    | .error _ => none
    | .ok result =>
      match result with
      | .obj kvs =>
        match kvs.lookup "result" with
        | some v => some v
        | none => none
      | _ => none
  else none

/-- FieldUpdater.update_product_field (lines 163-203).  The try block wraps
the whole body, so a missing update_product_field attribute or a raising
call returns False.  Otherwise: an HTTP response succeeds iff status 200, a
dict succeeds iff it has no "error" key, anything else is treated as
success. -/
def update_product_field_ok (c : PyApiClient) (proc_id : Int) (field_id : String)
    (field_value : Json) : Bool :=
  if c.methods.contains "update_product_field" then
    match c.update_product_field proc_id field_id field_value with
    | .error _ => false
    | .ok (.httpResponse code) => code == 200
    | .ok (.dict kvs) => (kvs.lookup "error").isNone
    | .ok (.plain _) => true
  else false

/-- The two remote operations as the engine sees them. -/
structure Gateway where
  fetchDetails : Int → Option Json
  pushField : Int → String → Json → Bool

/-- The gateway realised by a given api_client object. -/
def gatewayOfClient (c : PyApiClient) : Gateway :=
  { fetchDetails := fetch_product_details_from_api c
    pushField := update_product_field_ok c }

/-- The candidate filter of the field loop (lines 412-415): skip a field
unless its descriptor is truthy on __field__, or its name is in
static_values or in field_mappings. -/
def isCandidate (field_name : String) (field_info : Json) : Bool :=
  truthy (jgetD field_info "__field__" (.bool false))
  || (static_values.lookup field_name).isSome
  || (field_mappings.lookup field_name).isSome

/-- The needs_update test (lines 420-433): value is None, or an empty list
for photo/regions, or an empty string for producer. -/
def needsFill (field_name : String) (api_value : Json) : Bool :=
  api_value == Json.null
  || ((field_name == "photo" || field_name == "regions") && api_value == Json.arr [])
  || (field_name == "producer" && api_value == Json.str "")

/-- The field-selection loop (lines 407-455): for each API field in order,
keep (field_name, mapped_value) when the field passes the candidate filter,
needs filling, and the mapper produced a value. -/
def compute_field_updates (today_plus_one_year : String)
    (api_fields : List (String × Json)) (local_data : List (String × Json)) :
    List (String × Json) :=
  api_fields.filterMap (fun fi =>
    if !isCandidate fi.1 fi.2 then none
    else
      match map_field_value today_plus_one_year fi.1 local_data fi.2 with
      | some v =>
        if needsFill fi.1 (jgetD fi.2 "value" .null) then some (fi.1, v) else none
      | none => none)

/-- current_api_data.get('fields', \x7b\x7d) at line 378, as a list of items.
(A non-dict api document or fields value would raise uncaught in Python;
those states are outside the model.) -/
def apiFieldsOf : Json → List (String × Json)
  | .obj kvs =>
    match kvs.lookup "fields" with
    | some (.obj fs) => fs
    | some _ => []
    | none => []
  | _ => []

/-- One entry of results["errors"] (lines 367-371 and 494-498). -/
structure ErrorEntry where
  product_id : String
  proc_id : Int
  error : String
deriving DecidableEq

/-- The error text built at line 497. -/
def field_failure_text (total_queued : Nat) (failed_list : List (String × Json)) :
    String :=
  "Failed to update " ++ toString failed_list.length ++ " out of "
    ++ toString total_queued ++ " fields: "
    ++ joinComma (failed_list.map (fun fu => fu.1 ++ ": " ++ pyStr fu.2))

/-- What one iteration of the product loop produces: the written-back
record, whether it was counted successful, its error entry if any, and the
set-field calls issued to the gateway, in order. -/
structure StepResult where
  record : SyncRecord
  ok : Bool
  err : Option ErrorEntry
  calls : List (Int × String × Json)
deriving DecidableEq

/-- The failure write-back of the fetch guard (lines 364-372). -/
def fetch_failure_step (now : Nat) (p : LoadedProduct) : StepResult :=
  { record := mark_as_failed now p.record, ok := false,
    err := some (ErrorEntry.mk p.product_id p.proc_id
                  "Failed to fetch product details from API"),
    calls := [] }

/-- One iteration of the product loop in process_product_updates
(lines 352-503): fetch the live fields — line 364 tests
`if not current_api_data:`, a Python falsiness check, so both a None
return and a present-but-falsy document (e.g. an empty dict) mark the
record failed with a fetch error — then compute the updates to queue, mark
as updated when nothing is queued, otherwise push every queued field and
mark updated only when all pushes succeeded, failed otherwise with an
error naming each failed field. -/
def process_one (gw : Gateway) (now : Nat) (today_plus_one_year : String)
    (p : LoadedProduct) : StepResult :=
  match gw.fetchDetails p.proc_id with
  | none => fetch_failure_step now p
  | some current_api_data =>
    if !truthy current_api_data then fetch_failure_step now p
    else
    let field_updates :=
      compute_field_updates today_plus_one_year (apiFieldsOf current_api_data) p.product_json
    if field_updates.isEmpty then
      { record := mark_as_updated p.record, ok := true, err := none, calls := [] }
    else
      let failed_list := field_updates.filter (fun fu => !gw.pushField p.proc_id fu.1 fu.2)
      { record := if failed_list.isEmpty then mark_as_updated p.record
                  else mark_as_failed now p.record
        ok := failed_list.isEmpty
        err := if failed_list.isEmpty then none
               else some (ErrorEntry.mk p.product_id p.proc_id
                           (field_failure_text field_updates.length failed_list))
        calls := field_updates.map (fun fu => (p.proc_id, fu.1, fu.2)) }

/-- The batch summary returned by process_product_updates (lines 344-349). -/
structure Summary where
  total : Nat
  successful : Nat
  failed : Nat
  errors : List ErrorEntry
deriving DecidableEq

/-- The product loop of process_product_updates over an already loaded
batch, together with the per-record step results. -/
def run_batch (gw : Gateway) (now : Nat) (today_plus_one_year : String)
    (loaded : List LoadedProduct) : Summary × List StepResult :=
  let steps := loaded.map (process_one gw now today_plus_one_year)
  ({ total := loaded.length
     successful := (steps.filter (fun s => s.ok)).length
     failed := (steps.filter (fun s => !s.ok)).length
     errors := steps.filterMap (fun s => s.err) }, steps)

/-- FieldUpdater.process_product_updates (lines 323-516): load the batch and
run the product loop.  (When the loaded list is empty the early return at
line 341 produces the same all-zero summary as the general path.) -/
def process_product_updates (gw : Gateway) (now : Nat)
    (today_plus_one_year : String) (db : Db) (login : String) (limit : Nat) :
    Summary × List StepResult :=
  run_batch gw now today_plus_one_year (get_products_needing_updates db login limit)

/-! Concrete instances used by the closed-form checks below. -/

/-- A live api document with three managed null fields a, b, c. -/
def demoDoc : Json := .obj [("fields", .obj
  [("a", .obj [("__field__", .bool true), ("value", .null), ("type", .str "")]),
   ("b", .obj [("__field__", .bool true), ("value", .null), ("type", .str "")]),
   ("c", .obj [("__field__", .bool true), ("value", .null), ("type", .str "")])])]

/-- A gateway that serves demoDoc and fails exactly the push of field b. -/
def demoGw : Gateway := ⟨fun _ => some demoDoc, fun _ f _ => f != "b"⟩

/-- A not-yet-updated sync record. -/
def demoRecord : SyncRecord := ⟨"u", "p", 9, false, 0, none⟩

/-- The loaded form of demoRecord with local values for a, b, c. -/
def demoProduct : LoadedProduct := ⟨demoRecord, "p", 9,
  [("a", .str "va"), ("b", .str "vb"), ("c", .str "vc")], .obj []⟩

/-- The Product-table row backing demoProduct. -/
def demoRow : ProductRow :=
  ⟨"p", some (.obj [("a", .str "va"), ("b", .str "vb"), ("c", .str "vc")])⟩

/-- A database holding demoRecord and its product row. -/
def demoDb : Db := ⟨[demoRecord], [demoRow]⟩

/-- A live api document with an empty field set. -/
def noopDoc : Json := .obj [("fields", .obj [])]

/-- A gateway that serves noopDoc (no field ever needs filling). -/
def noopGw : Gateway := ⟨fun _ => some noopDoc, fun _ _ _ => false⟩

/-- An api_client with exactly the attribute names APIClient defines; the
behaviour fields are irrelevant because the missing-attribute branch fires
first. -/
def demoClient : PyApiClient :=
  ⟨shippedMethods, fun _ => .error "unreachable", fun _ _ _ => .error "unreachable"⟩

/-- A sync record whose product row is absent from the Product table. -/
def ghostRecord : SyncRecord := ⟨"u", "p1", 7, false, 0, none⟩

/-- A database holding ghostRecord and an empty Product table. -/
def ghostDb : Db := ⟨[ghostRecord], []⟩

/-- A gateway for the ghost run (never reached). -/
def ghostGw : Gateway := ⟨fun _ => none, fun _ _ _ => false⟩

/-! Helper lemmas. -/

theorem attemptLe_trans (a b c : Option Nat) :
    attemptLe a b = true → attemptLe b c = true → attemptLe a c = true := by
  cases a <;> cases b <;> cases c <;> simp [attemptLe]
  omega

theorem attemptLe_total (a b : Option Nat) :
    (attemptLe a b || attemptLe b a) = true := by
  cases a <;> cases b <;> simp [attemptLe]
  omega

theorem recLe_trans (a b c : SyncRecord) :
    recLe a b = true → recLe b c = true → recLe a c = true :=
  attemptLe_trans _ _ _

theorem recLe_total (a b : SyncRecord) : (recLe a b || recLe b a) = true :=
  attemptLe_total _ _

/-- Records returned by the selection query match its WHERE clause. -/
theorem mem_select_batch (db : Db) (login : String) (limit : Nat) (r : SyncRecord)
    (h : r ∈ select_batch db login limit) :
    r.username = login ∧ r.is_fields_updated = false := by
  have hr1 : r ∈ (db.synced.filter
      (fun x => x.username == login && !x.is_fields_updated)).mergeSort recLe :=
    List.mem_of_mem_take h
  have hr2 := (List.mergeSort_perm _ recLe).mem_iff.mp hr1
  have hr3 := (List.mem_filter.mp hr2).2
  simp only [Bool.and_eq_true, beq_iff_eq, Bool.not_eq_true'] at hr3
  exact hr3

/-- Loading leaves the sync record itself untouched. -/
theorem loadProduct_record (db : Db) (r : SyncRecord) (lp : LoadedProduct)
    (h : loadProduct db r = some lp) : lp.record = r := by
  unfold loadProduct at h
  split at h
  · simp at h
  · split at h
    · simp at h
    · split at h
      · simp only [Option.some.injEq] at h
        rw [← h]
      · simp at h

/-- Every loaded product of a batch stems from a selected record, so its
record has the batch username and is_fields_updated = false. -/
theorem mem_loaded_flag (db : Db) (login : String) (limit : Nat) (lp : LoadedProduct)
    (h : lp ∈ get_products_needing_updates db login limit) :
    lp.record.is_fields_updated = false ∧ lp.record.username = login := by
  obtain ⟨r, hr, hload⟩ := List.mem_filterMap.mp h
  have hrec := loadProduct_record db r lp hload
  have hsel := mem_select_batch db login limit r hr
  rw [hrec]
  exact ⟨hsel.2, hsel.1⟩

/-- The value of one loop iteration when the api fetch fails. -/
theorem process_one_fetch_none (gw : Gateway) (now : Nat) (t : String)
    (p : LoadedProduct) (h : gw.fetchDetails p.proc_id = none) :
    process_one gw now t p =
      ⟨mark_as_failed now p.record, false,
       some (ErrorEntry.mk p.product_id p.proc_id
         "Failed to fetch product details from API"), []⟩ := by
  simp [process_one, fetch_failure_step, h]

/-- The value of one loop iteration when the api fetch returns a falsy
document (the `if not current_api_data:` guard at line 364 fires). -/
theorem process_one_fetch_falsy (gw : Gateway) (now : Nat) (t : String)
    (p : LoadedProduct) (d : Json) (h : gw.fetchDetails p.proc_id = some d)
    (ht : truthy d = false) :
    process_one gw now t p = fetch_failure_step now p := by
  simp [process_one, h, ht]

/-- A non-empty update queue forces a truthy fetched document (its fields
key is present, so the document is a non-empty dict). -/
theorem truthy_of_field_updates_ne_nil (t : String) (d : Json)
    (local_data : List (String × Json))
    (h : compute_field_updates t (apiFieldsOf d) local_data ≠ []) :
    truthy d = true := by
  cases d with
  | obj kvs =>
    cases kvs with
    | nil => exact absurd rfl h
    | cons a l => rfl
  | null => exact absurd rfl h
  | bool b => exact absurd rfl h
  | int n => exact absurd rfl h
  | float q => exact absurd rfl h
  | str s => exact absurd rfl h
  | arr xs => exact absurd rfl h

/-- The value of one loop iteration when the api fetch returns a truthy
document. -/
theorem process_one_fetch_some (gw : Gateway) (now : Nat) (t : String)
    (p : LoadedProduct) (d : Json) (h : gw.fetchDetails p.proc_id = some d)
    (ht : truthy d = true) :
    process_one gw now t p =
      (if (compute_field_updates t (apiFieldsOf d) p.product_json).isEmpty then
        ⟨mark_as_updated p.record, true, none, []⟩
       else
        StepResult.mk
          (if ((compute_field_updates t (apiFieldsOf d) p.product_json).filter
                (fun fu => !gw.pushField p.proc_id fu.1 fu.2)).isEmpty
           then mark_as_updated p.record else mark_as_failed now p.record)
          ((compute_field_updates t (apiFieldsOf d) p.product_json).filter
                (fun fu => !gw.pushField p.proc_id fu.1 fu.2)).isEmpty
          (if ((compute_field_updates t (apiFieldsOf d) p.product_json).filter
                (fun fu => !gw.pushField p.proc_id fu.1 fu.2)).isEmpty
           then none
           else some (ErrorEntry.mk p.product_id p.proc_id
             (field_failure_text
               (compute_field_updates t (apiFieldsOf d) p.product_json).length
               ((compute_field_updates t (apiFieldsOf d) p.product_json).filter
                 (fun fu => !gw.pushField p.proc_id fu.1 fu.2)))))
          ((compute_field_updates t (apiFieldsOf d) p.product_json).map
            (fun fu => (p.proc_id, fu.1, fu.2)))) := by
  simp [process_one, h, ht]

/-- Every loop iteration either marks its record updated (counted
successful) or marks it failed (counted failed); nothing else is written. -/
theorem process_one_record_cases (gw : Gateway) (now : Nat) (t : String)
    (p : LoadedProduct) :
    ((process_one gw now t p).ok = true
      ∧ (process_one gw now t p).record = mark_as_updated p.record)
    ∨ ((process_one gw now t p).ok = false
      ∧ (process_one gw now t p).record = mark_as_failed now p.record) := by
  cases hf : gw.fetchDetails p.proc_id with
  | none =>
    rw [process_one_fetch_none gw now t p hf]
    right; exact ⟨rfl, rfl⟩
  | some d =>
    by_cases ht : truthy d
    · rw [process_one_fetch_some gw now t p d hf ht]
      by_cases hE : (compute_field_updates t (apiFieldsOf d) p.product_json).isEmpty
      · left; simp [hE]
      · by_cases hfl : ((compute_field_updates t (apiFieldsOf d) p.product_json).filter
          (fun fu => !gw.pushField p.proc_id fu.1 fu.2)).isEmpty
        · left; simp [hE, hfl]
        · right; simp [hE, hfl]
    · rw [process_one_fetch_falsy gw now t p d hf (by simpa using ht)]
      right; exact ⟨rfl, rfl⟩

/-! The claims. -/

/-- C1: if a record's pass queues one or more field pushes and any single
push fails, the outcome is failed (counted in the summary's failed count
with an error entry naming the failed fields), is_fields_updated stays
false and last_attempt_time is set to the current time, even when every
other queued push succeeded; the record is counted successful exactly when
all queued pushes succeed. -/
theorem partial_failure_semantics (gw : Gateway) (now : Nat) (t : String)
    (p : LoadedProduct) (hflag : p.record.is_fields_updated = false)
    (d : Json) (hfetch : gw.fetchDetails p.proc_id = some d)
    (hne : compute_field_updates t (apiFieldsOf d) p.product_json ≠ []) :
    ((∃ fu ∈ compute_field_updates t (apiFieldsOf d) p.product_json,
        gw.pushField p.proc_id fu.1 fu.2 = false) →
      (process_one gw now t p).ok = false
      ∧ (process_one gw now t p).record.is_fields_updated = false
      ∧ (process_one gw now t p).record.last_attempt_time = some now
      ∧ (process_one gw now t p).err = some (ErrorEntry.mk p.product_id p.proc_id
          (field_failure_text (compute_field_updates t (apiFieldsOf d) p.product_json).length
            ((compute_field_updates t (apiFieldsOf d) p.product_json).filter
              (fun fu => !gw.pushField p.proc_id fu.1 fu.2))))
      ∧ ∀ loaded, p ∈ loaded →
          0 < (run_batch gw now t loaded).1.failed
          ∧ ErrorEntry.mk p.product_id p.proc_id
              (field_failure_text (compute_field_updates t (apiFieldsOf d) p.product_json).length
                ((compute_field_updates t (apiFieldsOf d) p.product_json).filter
                  (fun fu => !gw.pushField p.proc_id fu.1 fu.2)))
            ∈ (run_batch gw now t loaded).1.errors)
    ∧ ((process_one gw now t p).ok = true ↔
        ∀ fu ∈ compute_field_updates t (apiFieldsOf d) p.product_json,
          gw.pushField p.proc_id fu.1 fu.2 = true) := by
  have ht : truthy d = true := truthy_of_field_updates_ne_nil t d p.product_json hne
  have heq := process_one_fetch_some gw now t p d hfetch ht
  have hE : (compute_field_updates t (apiFieldsOf d) p.product_json).isEmpty = false := by
    simpa [List.isEmpty_iff] using hne
  constructor
  · intro hfail
    obtain ⟨fu, hfu, hpush⟩ := hfail
    have hmemf : fu ∈ (compute_field_updates t (apiFieldsOf d) p.product_json).filter
        (fun fu => !gw.pushField p.proc_id fu.1 fu.2) :=
      List.mem_filter.mpr ⟨hfu, by simp [hpush]⟩
    have hfl : ((compute_field_updates t (apiFieldsOf d) p.product_json).filter
        (fun fu => !gw.pushField p.proc_id fu.1 fu.2)).isEmpty = false := by
      simpa [List.isEmpty_iff] using List.ne_nil_of_mem hmemf
    refine ⟨?_, ?_, ?_, ?_, ?_⟩
    · rw [heq]; simp [hE, hfl]
    · rw [heq]; simp [hE, hfl, mark_as_failed, hflag]
    · rw [heq]; simp [hE, hfl, mark_as_failed]
    · rw [heq]; simp [hE, hfl]
    · intro loaded hmem
      have hok : (process_one gw now t p).ok = false := by rw [heq]; simp [hE, hfl]
      have herr : (process_one gw now t p).err = some (ErrorEntry.mk p.product_id p.proc_id
          (field_failure_text (compute_field_updates t (apiFieldsOf d) p.product_json).length
            ((compute_field_updates t (apiFieldsOf d) p.product_json).filter
              (fun fu => !gw.pushField p.proc_id fu.1 fu.2)))) := by
        rw [heq]; simp [hE, hfl]
      have hmemstep : process_one gw now t p ∈ loaded.map (process_one gw now t) :=
        List.mem_map_of_mem _ hmem
      constructor
      · have hmf : process_one gw now t p ∈ (loaded.map (process_one gw now t)).filter
            (fun s => !s.ok) := List.mem_filter.mpr ⟨hmemstep, by simp [hok]⟩
        simpa [run_batch] using List.length_pos.mpr (List.ne_nil_of_mem hmf)
      · exact List.mem_filterMap.mpr
          ⟨process_one gw now t p, by simpa [run_batch] using hmemstep, herr⟩
  · rw [heq]
    simp only [hE, Bool.false_eq_true, if_false]
    constructor
    · intro hok fu hfu
      have := List.filter_eq_nil_iff.mp (List.isEmpty_iff.mp hok) fu hfu
      simpa using this
    · intro hall
      simp only [List.isEmpty_iff, List.filter_eq_nil_iff]
      intro fu hfu
      simp [hall fu hfu]

/-- Witness for C1: with the gateway that fails only the push of b, the
three-field record is marked failed at time 42 with its flag still false. -/
theorem partial_failure_semantics_witness :
    (process_one demoGw 42 "D" demoProduct).ok = false
    ∧ (process_one demoGw 42 "D" demoProduct).record.is_fields_updated = false
    ∧ (process_one demoGw 42 "D" demoProduct).record.last_attempt_time = some 42 := by
  have h := (partial_failure_semantics demoGw 42 "D" demoProduct (by decide) demoDoc rfl
      (by decide)).1 (by decide)
  exact ⟨h.1, h.2.1, h.2.2.1⟩

/-- C2: batch selection returns at most limit records, all carrying the
requested username with is_fields_updated = false, and ordered so that
every record with a null last_attempt_time precedes every record with a
non-null one, non-null timestamps ascending. -/
theorem select_batch_spec (db : Db) (login : String) (limit : Nat) :
    (select_batch db login limit).length ≤ limit
    ∧ (∀ r ∈ select_batch db login limit,
        r.username = login ∧ r.is_fields_updated = false)
    ∧ (select_batch db login limit).Pairwise (fun a b =>
        a.last_attempt_time = none
        ∨ ∃ ta tb, a.last_attempt_time = some ta ∧ b.last_attempt_time = some tb
            ∧ ta ≤ tb) := by
  refine ⟨List.length_take_le _ _, mem_select_batch db login limit, ?_⟩
  have hs := List.sorted_mergeSort recLe_trans recLe_total
    (db.synced.filter (fun x => x.username == login && !x.is_fields_updated))
  refine (List.Pairwise.sublist (List.take_sublist _ _) hs).imp ?_
  intro a b hab
  rcases ha : a.last_attempt_time with _ | ta
  · exact Or.inl rfl
  rcases hb : b.last_attempt_time with _ | tb
  · exact absurd hab (by simp [recLe, attemptLe, ha, hb])
  · exact Or.inr ⟨ta, tb, rfl, rfl, by simpa [recLe, attemptLe, ha, hb] using hab⟩

unseal List.merge List.mergeSort in
/-- Witness for C2: the single matching record of demoDb is selected and
satisfies the username/flag part of the specification. -/
theorem select_batch_spec_witness :
    demoRecord ∈ select_batch demoDb "u" 1
    ∧ demoRecord.username = "u" ∧ demoRecord.is_fields_updated = false := by
  have h := (select_batch_spec demoDb "u" 1).2.1 demoRecord (by decide)
  exact ⟨by decide, h⟩

/-- C3: with an api_client exposing exactly the attribute names the shipped
APIClient class defines (no fetch_product, no update_product_field), every
fetch_product_details_from_api call returns None, so every processed record
takes the fetch-failure path: marked failed with last_attempt_time set, its
updated flag untouched, no field push ever issued — the updated and no-op
outcomes are unreachable in the shipped composition. -/
theorem shipped_client_fetch_path (c : PyApiClient) (hm : c.methods = shippedMethods)
    (pid : Int) (now : Nat) (t : String) (p : LoadedProduct) :
    fetch_product_details_from_api c pid = none
    ∧ process_one (gatewayOfClient c) now t p =
        ⟨mark_as_failed now p.record, false,
         some (ErrorEntry.mk p.product_id p.proc_id
           "Failed to fetch product details from API"), []⟩
    ∧ (process_one (gatewayOfClient c) now t p).ok = false
    ∧ (process_one (gatewayOfClient c) now t p).record.is_fields_updated
        = p.record.is_fields_updated
    ∧ (process_one (gatewayOfClient c) now t p).record.last_attempt_time = some now
    ∧ (process_one (gatewayOfClient c) now t p).calls = [] := by
  have hnofetch : "fetch_product" ∉ c.methods := by
    rw [hm]; decide
  have h1 : ∀ q : Int, fetch_product_details_from_api c q = none := by
    intro q; simp [fetch_product_details_from_api, hnofetch]
  have h2 : (gatewayOfClient c).fetchDetails p.proc_id = none := h1 p.proc_id
  have heq := process_one_fetch_none (gatewayOfClient c) now t p h2
  refine ⟨h1 pid, heq, ?_, ?_, ?_, ?_⟩
  · rw [heq]
  · rw [heq]; rfl
  · rw [heq]; rfl
  · rw [heq]

/-- Witness for C3: the concrete shipped method list makes the fetch return
none and the demo record fail. -/
theorem shipped_client_fetch_path_witness :
    fetch_product_details_from_api demoClient 9 = none
    ∧ (process_one (gatewayOfClient demoClient) 42 "D" demoProduct).ok = false := by
  have h := shipped_client_fetch_path demoClient rfl 9 42 "D" demoProduct
  exact ⟨h.1, h.2.2.1⟩

/-- C4: a field is queued for update only if it passed the candidate filter
(truthy managed-field marker, or named in the static table or the rename
table) and its live value needed filling (null, or an empty list for
photo/regions, or an empty string for producer); hence a non-null,
non-empty value is never selected. -/
theorem field_update_selection_policy (t : String)
    (api_fields local_data : List (String × Json)) (fid : String) (v : Json)
    (h : (fid, v) ∈ compute_field_updates t api_fields local_data) :
    ∃ info, (fid, info) ∈ api_fields
      ∧ isCandidate fid info = true
      ∧ needsFill fid (jgetD info "value" .null) = true
      ∧ (truthy (jgetD info "__field__" (.bool false)) = true
         ∨ (static_values.lookup fid).isSome = true
         ∨ (field_mappings.lookup fid).isSome = true)
      ∧ (jgetD info "value" .null = .null
         ∨ ((fid = "photo" ∨ fid = "regions") ∧ jgetD info "value" .null = .arr [])
         ∨ (fid = "producer" ∧ jgetD info "value" .null = .str "")) := by
  obtain ⟨⟨n, info⟩, hmem, hf⟩ := List.mem_filterMap.mp h
  by_cases hc : isCandidate n info
  · rw [if_neg (by simp [hc])] at hf
    cases hmv : map_field_value t n local_data info with
    | none => rw [hmv] at hf; simp at hf
    | some w =>
      rw [hmv] at hf
      by_cases hnf : needsFill n (jgetD info "value" .null)
      · simp only [hnf, if_true] at hf
        have hfv : n = fid ∧ w = v := by
          have h2 := Option.some.inj hf
          exact ⟨congrArg Prod.fst h2, congrArg Prod.snd h2⟩
        obtain ⟨rfl, rfl⟩ := hfv
        refine ⟨info, hmem, hc, hnf, ?_, ?_⟩
        · simpa [isCandidate, Bool.or_eq_true, or_assoc] using hc
        · have hnf2 := hnf
          simp only [needsFill, Bool.or_eq_true, Bool.and_eq_true, beq_iff_eq] at hnf2
          tauto
      · simp [hnf] at hf
  · simp [hc] at hf

/-- Witness for C4: field a of demoDoc is queued, and the selection facts
hold of its descriptor. -/
theorem field_update_selection_policy_witness :
    ∃ info, ("a", info) ∈ apiFieldsOf demoDoc
      ∧ isCandidate "a" info = true
      ∧ needsFill "a" (jgetD info "value" .null) = true
      ∧ (truthy (jgetD info "__field__" (.bool false)) = true
         ∨ (static_values.lookup "a").isSome = true
         ∨ (field_mappings.lookup "a").isSome = true)
      ∧ (jgetD info "value" .null = .null
         ∨ (("a" = "photo" ∨ "a" = "regions") ∧ jgetD info "value" .null = .arr [])
         ∨ ("a" = "producer" ∧ jgetD info "value" .null = .str "")) :=
  field_update_selection_policy "D" (apiFieldsOf demoDoc) demoProduct.product_json
    "a" (.str "va") (by decide)

/-- C5 counterexample: the coercion step is NOT total as claimed — for the
int 2^1024 under a numeric descriptor, float() raises OverflowError, which
the except clause (it catches only ValueError and TypeError) lets escape,
so _convert_value_for_api raises instead of returning a value. -/
theorem coercion_overflow_counterexample :
    tryPyFloat (.int ((2 ^ 1024 : Nat) : Int)) = .error .overflow
    ∧ convert_value_for_api_checked (.int ((2 ^ 1024 : Nat) : Int))
        (.obj [("type", .str "number")]) = .error () := by
  exact ⟨by decide, by decide⟩

/-- C5 amended: the coercion step is total except for exactly one uncaught
exception — float() on an int at or beyond the double range raises
OverflowError past the except clause; on every other input it returns a
value, and on the numeric types it returns the integer narrowing of a
finite integral parse, the float otherwise, and the value's text
representation when float() raises a caught error, never dropping the
field.  The total convert_value_for_api used by the engine model agrees
with the checked function wherever it returns a value. -/
theorem coercion_except_overflow (v field_info : Json) :
    (tryPyFloat v ≠ .error .overflow →
        ∃ r, convert_value_for_api_checked v field_info = .ok r)
    ∧ (tryPyFloat v = .error .overflow ↔
        ∃ n, v = .int n ∧ doubleOverflowThreshold ≤ n.natAbs)
    ∧ (∀ r, convert_value_for_api_checked v field_info = .ok r →
        convert_value_for_api v field_info = r)
    ∧ ((jgetD field_info "type" (.str "") = .str "number"
        ∨ jgetD field_info "type" (.str "") = .str "float"
        ∨ jgetD field_info "type" (.str "") = .str "int") →
      (∀ q, tryPyFloat v = .ok (.finite q) →
          convert_value_for_api_checked v field_info
            = .ok (if q.den = 1 then .int q.num else .float (.finite q)))
      ∧ (tryPyFloat v = .error .caught →
          convert_value_for_api_checked v field_info = .ok (.str (pyStr v)))
      ∧ (tryPyFloat v = .error .overflow →
          convert_value_for_api_checked v field_info = .error ())) := by
  refine ⟨?_, ?_, ?_, ?_⟩
  · intro h
    simp only [convert_value_for_api_checked]
    split_ifs with h1 h2 h3
    · cases hq : tryPyFloat v with
      | ok fv => cases fv <;> exact ⟨_, rfl⟩
      | error e =>
        cases e
        · exact ⟨_, rfl⟩
        · exact absurd hq h
    · cases v <;> exact ⟨_, rfl⟩
    · exact ⟨_, rfl⟩
    · cases v <;> exact ⟨_, rfl⟩
  · constructor
    · intro h
      cases v with
      | int n =>
        refine ⟨n, rfl, ?_⟩
        by_contra hn
        simp [tryPyFloat, hn] at h
      | null => simp [tryPyFloat] at h
      | bool b => simp [tryPyFloat] at h
      | float q => simp [tryPyFloat] at h
      | str s =>
        cases hp : pyParseFloatString s
        · simp [tryPyFloat, hp] at h
        · simp [tryPyFloat, hp] at h
      | arr xs => simp [tryPyFloat] at h
      | obj kvs => simp [tryPyFloat] at h
    · rintro ⟨n, rfl, hn⟩
      simp [tryPyFloat, hn]
  · intro r hr
    unfold convert_value_for_api
    rw [hr]
  · intro hty
    have hcond : (jgetD field_info "type" (.str "") == Json.str "number"
        || jgetD field_info "type" (.str "") == Json.str "float"
        || jgetD field_info "type" (.str "") == Json.str "int") = true := by
      rcases hty with h | h | h <;> simp [h]
    refine ⟨?_, ?_, ?_⟩
    · intro q hq
      unfold convert_value_for_api_checked
      rw [if_pos hcond, hq]
    · intro hq
      unfold convert_value_for_api_checked
      rw [if_pos hcond, hq]
    · intro hq
      unfold convert_value_for_api_checked
      rw [if_pos hcond, hq]

/-- Witness for the amended C5: the exponent string "1e5" parses and
narrows to the int 100000 (the program returns a number here, not the text
fallback), and the unparsable string "abc" falls back to itself. -/
theorem coercion_except_overflow_witness :
    convert_value_for_api_checked (.str "1e5") (.obj [("type", .str "number")])
      = .ok (.int 100000)
    ∧ convert_value_for_api_checked (.str "abc") (.obj [("type", .str "number")])
      = .ok (.str "abc") := by
  constructor
  · have h := ((coercion_except_overflow (.str "1e5")
        (.obj [("type", .str "number")])).2.2.2 (Or.inl rfl)).1
        ⟨100000, 1⟩ (by decide)
    simpa using h
  · exact ((coercion_except_overflow (.str "abc")
        (.obj [("type", .str "number")])).2.2.2 (Or.inl rfl)).2.1 (by decide)

/-- C6: when the fetched document passes the truthiness guard at line 364
and zero fields both need filling and map successfully, the record is
marked fully updated with no push call issued, and a second pass over the
same remote state again issues no push call. -/
theorem noop_marks_updated_and_idempotent (gw : Gateway) (now : Nat) (t : String)
    (p : LoadedProduct) (d : Json)
    (hfetch : gw.fetchDetails p.proc_id = some d)
    (htruthy : truthy d = true)
    (hzero : compute_field_updates t (apiFieldsOf d) p.product_json = []) :
    (process_one gw now t p).calls = []
    ∧ (process_one gw now t p).ok = true
    ∧ (process_one gw now t p).err = none
    ∧ (process_one gw now t p).record = mark_as_updated p.record
    ∧ (process_one gw now t p).record.is_fields_updated = true
    ∧ (process_one gw now t p).record.last_attempt_time = none
    ∧ (process_one gw now t
        { p with record := (process_one gw now t p).record }).calls = [] := by
  have heq := process_one_fetch_some gw now t p d hfetch htruthy
  have hE : (compute_field_updates t (apiFieldsOf d) p.product_json).isEmpty = true := by
    simp [hzero]
  have heq2 := process_one_fetch_some gw now t
    { p with record := (process_one gw now t p).record } d (by simpa using hfetch)
    htruthy
  refine ⟨?_, ?_, ?_, ?_, ?_, ?_, ?_⟩
  · rw [heq]; simp [hE]
  · rw [heq]; simp [hE]
  · rw [heq]; simp [hE]
  · rw [heq]; simp [hE]
  · rw [heq]; simp [hE, mark_as_updated]
  · rw [heq]; simp [hE, mark_as_updated]
  · rw [heq2]; simp [hE, hzero]

/-- Witness for C6: the empty-field-set gateway leads to a no-op pass that
marks the demo record updated. -/
theorem noop_marks_updated_and_idempotent_witness :
    (process_one noopGw 42 "D" demoProduct).calls = []
    ∧ (process_one noopGw 42 "D" demoProduct).record.is_fields_updated = true
    ∧ (process_one noopGw 42 "D"
        { demoProduct with
          record := (process_one noopGw 42 "D" demoProduct).record }).calls = [] := by
  have h := noop_marks_updated_and_idempotent noopGw 42 "D" demoProduct noopDoc rfl
    (by decide) (by decide)
  exact ⟨h.1, h.2.2.2.2.1, h.2.2.2.2.2.2⟩

/-- C7: the transitions the engine writes preserve the invariant that
is_fields_updated = true implies last_attempt_time = null: a successful or
no-op pass sets the flag and clears the timestamp together, and a failed
pass stamps the current time on a record whose flag is (and stays)
false. -/
theorem transitions_preserve_invariant (gw : Gateway) (now : Nat) (t : String)
    (db : Db) (login : String) (limit : Nat) :
    (∀ r : SyncRecord, (mark_as_updated r).is_fields_updated = true
        ∧ (mark_as_updated r).last_attempt_time = none)
    ∧ (∀ (n : Nat) (r : SyncRecord), (mark_as_failed n r).last_attempt_time = some n
        ∧ (mark_as_failed n r).is_fields_updated = r.is_fields_updated)
    ∧ (∀ s ∈ (process_product_updates gw now t db login limit).2,
        (s.ok = true → s.record.is_fields_updated = true
            ∧ s.record.last_attempt_time = none)
        ∧ (s.ok = false → s.record.is_fields_updated = false
            ∧ s.record.last_attempt_time = some now)
        ∧ (s.record.is_fields_updated = true → s.record.last_attempt_time = none)) := by
  refine ⟨fun r => ⟨rfl, rfl⟩, fun n r => ⟨rfl, rfl⟩, ?_⟩
  intro s hs
  have hs' : s ∈ (get_products_needing_updates db login limit).map
      (process_one gw now t) := by
    simpa [process_product_updates, run_batch] using hs
  obtain ⟨p, hp, rfl⟩ := List.mem_map.mp hs'
  have hflag := (mem_loaded_flag db login limit p hp).1
  rcases process_one_record_cases gw now t p with ⟨hok, hrec⟩ | ⟨hok, hrec⟩
  · refine ⟨fun _ => ?_, fun hcontra => ?_, fun _ => ?_⟩
    · rw [hrec]; exact ⟨rfl, rfl⟩
    · rw [hok] at hcontra; exact absurd hcontra (by simp)
    · rw [hrec]; rfl
  · refine ⟨fun hcontra => ?_, fun _ => ?_, fun habs => ?_⟩
    · rw [hok] at hcontra; exact absurd hcontra (by simp)
    · rw [hrec]; exact ⟨by simpa [mark_as_failed] using hflag, rfl⟩
    · rw [hrec] at habs ⊢
      exact absurd habs (by simpa [mark_as_failed] using hflag)

unseal List.merge List.mergeSort in
/-- Witness for C7: the processed demo record is in the batch output and
satisfies the invariant. -/
theorem transitions_preserve_invariant_witness :
    (process_one demoGw 42 "D" demoProduct)
        ∈ (process_product_updates demoGw 42 "D" demoDb "u" 1).2
    ∧ ((process_one demoGw 42 "D" demoProduct).record.is_fields_updated = true →
        (process_one demoGw 42 "D" demoProduct).record.last_attempt_time = none) := by
  have h := (transitions_preserve_invariant demoGw 42 "D" demoDb "u" 1).2.2
    (process_one demoGw 42 "D" demoProduct) (by decide)
  exact ⟨by decide, h.2.2⟩

unseal List.merge List.mergeSort in
/-- C8 counterexample: ghostRecord is selected and its Product row is
absent, yet the batch summary reports zero failed records with no error
entry and writes back nothing — the record is not marked failed and its
last_attempt_time is untouched, contradicting the claim that a missing
listing yields a failed outcome counted in the summary. -/
theorem missing_listing_counterexample :
    ghostRecord ∈ select_batch ghostDb "u" 5
    ∧ loadProduct ghostDb ghostRecord = none
    ∧ (process_product_updates ghostGw 42 "D" ghostDb "u" 5).1
        = Summary.mk 0 0 0 []
    ∧ (process_product_updates ghostGw 42 "D" ghostDb "u" 5).2 = [] :=
  ⟨by decide, by decide, by decide, by decide⟩

/-- C8 amended: a selected record whose Product row is absent or whose
stored JSON is unparseable is silently dropped while loading the batch: it
is excluded from processing (its record is written back by no step) and the
summary counts only the records that loaded. -/
theorem missing_listing_skipped (db : Db) (login : String) (limit : Nat)
    (r : SyncRecord) (hr : r ∈ select_batch db login limit)
    (hload : loadProduct db r = none) :
    r ∉ (get_products_needing_updates db login limit).map LoadedProduct.record
    ∧ ∀ gw now t,
        (process_product_updates gw now t db login limit).1.total
          = (get_products_needing_updates db login limit).length
        ∧ (process_product_updates gw now t db login limit).2.length
          = (get_products_needing_updates db login limit).length := by
  constructor
  · intro hmem
    obtain ⟨lp, hlp, hrec⟩ := List.mem_map.mp hmem
    obtain ⟨r2, hr2, hload2⟩ := List.mem_filterMap.mp hlp
    have hid : lp.record = r2 := loadProduct_record db r2 lp hload2
    rw [hid] at hrec
    rw [hrec] at hload2
    rw [hload] at hload2
    exact Option.noConfusion hload2
  · intro gw now t
    exact ⟨rfl, by simp [process_product_updates, run_batch]⟩

unseal List.merge List.mergeSort in
/-- Witness for the amended C8: the ghost record appears in no loaded
batch entry. -/
theorem missing_listing_skipped_witness :
    ghostRecord ∉ (get_products_needing_updates ghostDb "u" 5).map
      LoadedProduct.record
    ∧ (process_product_updates ghostGw 42 "D" ghostDb "u" 5).1.total
        = (get_products_needing_updates ghostDb "u" 5).length := by
  have h := missing_listing_skipped ghostDb "u" 5 ghostRecord (by decide) (by decide)
  exact ⟨h.1, (h.2 ghostGw 42 "D").1⟩

/-- C9 evaluation: the registered zero-argument best_before generator is
never usable — the call site passes one positional argument, so the call
raises TypeError and the mapper yields no mapping instead of the computed
expiry date; the one-argument price transform is applied as documented. -/
theorem best_before_transform_raises (t : String) (v : Json) (field_info : Json) :
    map_field_value t "best_before" [("best_before", v)] field_info = none
    ∧ map_field_value t "price" [("price", .int 3)]
        (.obj [("type", .str "number")]) = some (.int 6)
    ∧ (value_transformations t).lookup "best_before"
        = some (.nullary (fun _ => .str t)) :=
  ⟨rfl, rfl, rfl⟩

/-- C10: for remote field photo the mapper reads the local images list and
returns (the coercion of) its first element when non-empty, and no mapping
when it is empty or absent; in particular value=[] with images=["img-77"]
maps to "img-77". -/
theorem photo_maps_first_image (t : String) (local_data : List (String × Json))
    (field_info : Json) :
    (∀ x xs, local_data.lookup "images" = some (.arr (x :: xs)) →
        map_field_value t "photo" local_data field_info
          = some (convert_value_for_api x field_info))
    ∧ (local_data.lookup "images" = some (.arr []) →
        map_field_value t "photo" local_data field_info = none)
    ∧ (local_data.lookup "images" = none →
        map_field_value t "photo" local_data field_info = none)
    ∧ map_field_value t "photo" [("images", .arr [.str "img-77"])]
        (.obj [("value", .arr [])]) = some (.str "img-77") := by
  have h1 : static_values.lookup "photo" = none := rfl
  have h2 : field_mappings.lookup "photo" = some "images" := rfl
  refine ⟨?_, ?_, ?_, ?_⟩
  · intro x xs hx
    simp [map_field_value, h1, h2, hx]
  · intro hx
    simp [map_field_value, h1, h2, hx]
  · intro hx
    simp [map_field_value, h1, h2, hx]
  · rfl

/-- Witness for C10: a two-element images list maps to its first element. -/
theorem photo_maps_first_image_witness :
    map_field_value "D" "photo"
      [("images", .arr [.str "img-77", .str "img-88"])] (.obj [])
      = some (convert_value_for_api (.str "img-77") (.obj [])) :=
  (photo_maps_first_image "D" [("images", .arr [.str "img-77", .str "img-88"])]
    (.obj [])).1 (.str "img-77") [.str "img-88"] rfl
